import Mathlib

/-!
Shallow embedding of the Swarm-Wallpaper core (src/state.rs and src/app.rs):
the Surface Session (`State`) with its `resize` and `render` operations, and
the Frame Controller (`App`) with its `resumed` and `window_event` handlers.

Modelling conventions:
* Machine integers (`u32`) are `Nat` with explicit `% 2^32` where the source
  wraps (`wrapping_add`); other `u32` values never overflow in the source.
* The uniform block `Params { size: [f32; 2], frame: u32, _pad: u32 }` is
  recorded as the integer values the code passes to the `as f32` casts; the
  `_pad` field is constant 0 and omitted.
* External services (the GPU surface and the windowing host) are inputs:
  `render` takes the outcome the swap-surface acquisition would return, and
  GPU/host side effects (surface reconfiguration, buffer writes, redraw
  requests, loop exit, device drain) are recorded in an explicit effect trace.
  The trace also records each call the Controller makes into the Session
  (`renderCall`, `resizeCall`), marking the call sites in `window_event`.
-/

def U32_MOD : Nat := 2 ^ 32

/-- `u32::wrapping_add(1)` from `self.frame = self.frame.wrapping_add(1)`. -/
def wrappingAdd1 (n : Nat) : Nat := (n + 1) % U32_MOD

/-- The uniform block written to `params_buf` (struct `Params` in state.rs):
the integer values the code casts to `f32` for `size`, and `frame`. -/
structure Params where
  size : Nat × Nat
  frame : Nat
deriving DecidableEq, Repr

/-- `wgpu::SurfaceError` as matched in app.rs (the catch-all `Err(e)` arm
is `Other`). -/
inductive SurfaceError
  | Timeout
  | Outdated
  | Lost
  | OutOfMemory
  | Other
deriving DecidableEq, Repr

/-- Observable side effects of Session and Controller operations. -/
inductive Effect
  | surfaceConfigure (w h : Nat)
  | bufferWrite (p : Params)
  | submit
  | present
  | requestRedraw
  | exitLoop
  | devicePollWait
  | setTitle
  | logError
  | renderCall
  | resizeCall (w h : Nat)
deriving DecidableEq, Repr

/-- The Surface Session state (struct `State` in state.rs): the configured
surface size (`config.width`, `config.height`), the last-written contents of
the uniform buffer `params_buf`, and the `frame` counter. -/
structure State where
  width : Nat
  height : Nat
  uniform : Params
  frame : Nat
deriving DecidableEq, Repr

/-- `State::new` (state.rs lines 56-73, 140-150): the surface is configured at
the window's inner size with each dimension floored to 1, and the uniform
buffer is initialised with `frame = 0` and `size` equal to the configured
dimensions. GPU/adapter acquisition is modelled separately (`stateNewChecked`)
for the startup-failure claim. -/
def State.new (w0 h0 : Nat) : State :=
  let w := max w0 1
  let h := max h0 1
  { width := w, height := h
    uniform := { size := (w, h), frame := 0 }
    frame := 0 }

/-- `State::resize` (state.rs lines 153-168): no-op when either dimension is
zero; otherwise store the new size, reconfigure the surface, and rewrite the
uniform buffer with the new size and the unchanged frame counter. -/
def State.resize (s : State) (w h : Nat) : State × List Effect :=
  if w = 0 ∨ h = 0 then (s, [])
  else
    let p : Params := { size := (w, h), frame := s.frame }
    ({ s with width := w, height := h, uniform := p },
     [.surfaceConfigure w h, .bufferWrite p])

/-- `State::render` (state.rs lines 170-212): increment the frame counter
(wrapping), rewrite the uniform buffer with the new frame and current size,
then acquire the next surface texture — `acq` is the acquisition outcome the
external swap-surface returns; on failure the `?` operator returns the error
(after the increment and buffer write already happened); on success record,
submit and present. -/
def State.render (s : State) (acq : Option SurfaceError) :
    (State × List Effect) × Except SurfaceError Unit :=
  let f := wrappingAdd1 s.frame
  let p : Params := { size := (s.width, s.height), frame := f }
  let s1 : State := { s with frame := f, uniform := p }
  match acq with
  | some e => ((s1, [.bufferWrite p]), .error e)
  | none => ((s1, [.bufferWrite p, .submit, .present]), .ok ())

/-- A Session operation, for stating reachability invariants: the argument of
`render` is the external acquisition outcome. -/
inductive Op
  | resize (w h : Nat)
  | render (acq : Option SurfaceError)
deriving DecidableEq, Repr

def State.applyOp (s : State) (op : Op) : State :=
  match op with
  | .resize w h => (s.resize w h).1
  | .render acq => ((s.render acq).1).1

def runOps (s : State) (ops : List Op) : State :=
  ops.foldl State.applyOp s

/-- Number of `render` calls issued in an operation list. -/
def countRenders (ops : List Op) : Nat :=
  ops.countP (fun op => match op with | .render _ => true | _ => false)

/-- The Frame Controller state (struct `App` in app.rs). `fps_last` holds a
timestamp in milliseconds (`Instant` is external; `window_event` receives the
current time with each redraw event). -/
structure App where
  state : Option State
  animating : Bool
  fps_frames : Nat
  fps_last : Option Nat
deriving DecidableEq, Repr

/-- Window events as matched in `App::window_event`; `redrawRequested`
carries the external inputs of that branch: the surface-acquisition outcome
the contained `render` call will observe, and the current time in
milliseconds (for `fps_last.elapsed()`). -/
inductive WEvent
  | closeRequested
  | resized (w h : Nat)
  | redrawRequested (acq : Option SurfaceError) (now : Nat)
  | other
deriving DecidableEq, Repr

/-- `App::resumed` (app.rs lines 20-35): create the Session at the window's
inner size, set `animating`, reset the FPS tally and timestamp to now, and
request redraws (the source requests one redraw twice). -/
def App.resumed (_a : App) (w0 h0 now : Nat) : App × List Effect :=
  let s := State.new w0 h0
  ({ state := some s, animating := true, fps_frames := 0, fps_last := some now },
   [.requestRedraw, .requestRedraw])

/-- `App::window_event` (app.rs lines 39-96). Each Session call made by the
Controller is marked in the trace (`renderCall`, `resizeCall`) followed by the
Session's own effects. -/
def App.window_event (a : App) (e : WEvent) : App × List Effect :=
  match e with
  | .closeRequested =>
    let a1 : App := { a with animating := false }
    match a1.state with
    | some _ => (a1, [.devicePollWait, .exitLoop])
    | none => (a1, [.exitLoop])
  | .resized w h =>
    match a.state with
    | some s =>
      let (s1, eff) := s.resize w h
      ({ a with state := some s1 },
       .resizeCall w h :: eff ++ [.requestRedraw])
    | none => (a, [])
  | .redrawRequested acq now =>
    match a.state with
    | some s =>
      let ((s1, eff1), res) := s.render acq
      match res with
      | .ok _ =>
        let a1 : App := { a with state := some s1, fps_frames := a.fps_frames + 1 }
        let (a2, eff2) :=
          match a1.fps_last with
          | some t0 =>
            if 1000 ≤ now - t0 then
              (({ a1 with fps_frames := 0, fps_last := some now } : App),
               ([.setTitle] : List Effect))
            else (a1, [])
          | none => (a1, [])
        let eff3 : List Effect := if a2.animating then [.requestRedraw] else []
        (a2, .renderCall :: eff1 ++ eff2 ++ eff3)
      | .error SurfaceError.Lost | .error SurfaceError.Outdated =>
        let w := s1.width
        let h := s1.height
        let (s2, eff2) := s1.resize w h
        let eff3 : List Effect := if a.animating then [.requestRedraw] else []
        ({ a with state := some s2 },
         .renderCall :: eff1 ++ .resizeCall w h :: eff2 ++ eff3)
      | .error SurfaceError.OutOfMemory =>
        ({ a with state := some s1, animating := false },
         .renderCall :: eff1 ++ [.logError, .devicePollWait, .exitLoop])
      | .error SurfaceError.Timeout =>
        ({ a with state := some s1 }, .renderCall :: eff1)
      | .error SurfaceError.Other =>
        ({ a with state := some s1 }, .renderCall :: eff1 ++ [.logError])
    | none => (a, [])
  | .other => (a, [])

/-- The event loop: the host delivers events one at a time and delivers no
further events once `event_loop.exit()` has been requested (winit's exit
contract, main.rs lines 364-371). -/
def runEvents : App → List WEvent → App × List Effect
  | a, [] => (a, [])
  | a, e :: es =>
    let (a1, eff1) := a.window_event e
    if Effect.exitLoop ∈ eff1 then (a1, eff1)
    else
      let (a2, eff2) := runEvents a1 es
      (a2, eff1 ++ eff2)

def isRenderCall : Effect → Bool
  | .renderCall => true
  | _ => false

def isResizeCall : Effect → Bool
  | .resizeCall _ _ => true
  | _ => false

/-- A Session whose frame counter sits at the representable maximum of `u32`. -/
def sMax : State :=
  { width := 800, height := 600
    uniform := { size := (800, 600), frame := U32_MOD - 1 }
    frame := U32_MOD - 1 }

/-- Claim C1: for every successful `render` call, the frame counter and the
`frame` field written to the uniform block equal their pre-call value plus
one modulo `2^32`, and at the representable maximum the counter wraps to 0. -/
theorem render_frame_increments (s : State) (acq : Option SurfaceError)
    (hok : (s.render acq).2 = .ok ()) :
    (((s.render acq).1).1).frame = (s.frame + 1) % U32_MOD ∧
    (((s.render acq).1).1).uniform.frame = (s.frame + 1) % U32_MOD ∧
    (s.frame = U32_MOD - 1 → (((s.render acq).1).1).frame = 0) := by
  cases acq with
  | some e => simp [State.render] at hok
  | none =>
    refine ⟨rfl, rfl, ?_⟩
    intro h
    show wrappingAdd1 s.frame = 0
    rw [h]
    simp [wrappingAdd1, U32_MOD]

theorem render_frame_increments_witness :
    (((sMax.render none).1).1).frame = (sMax.frame + 1) % U32_MOD ∧
    (((sMax.render none).1).1).frame = 0 := by
  obtain ⟨h1, _, h3⟩ := render_frame_increments sMax none rfl
  exact ⟨h1, h3 rfl⟩

/-- Claim C3: a `resize` call with either dimension zero leaves the Session
state completely unchanged and performs no effect (no surface
reconfiguration, no buffer write). -/
theorem resize_zero_noop (s : State) (w h : Nat) (hz : w = 0 ∨ h = 0) :
    s.resize w h = (s, []) := by
  unfold State.resize
  rw [if_pos hz]

theorem resize_zero_noop_witness :
    (State.new 800 600).resize 0 600 = (State.new 800 600, []) :=
  resize_zero_noop (State.new 800 600) 0 600 (Or.inl rfl)

/-- Claim C6 counterexample: a `render` call that fails (here with `Timeout`)
still increments the frame counter, because `State::render` increments
`self.frame` before the fallible surface acquisition. -/
theorem render_error_still_increments :
    ((State.new 800 600).render (some .Timeout)).2
        = Except.error SurfaceError.Timeout ∧
    ((((State.new 800 600).render (some .Timeout)).1).1).frame = 1 ∧
    (State.new 800 600).frame = 0 :=
  ⟨rfl, rfl, rfl⟩

/-- Claim C6 (amended): the frame counter is incremented exactly once per
`render` call, whether the call succeeds or returns an error — the increment
happens before surface acquisition. -/
theorem render_always_increments (s : State) (acq : Option SurfaceError) :
    (((s.render acq).1).1).frame = (s.frame + 1) % U32_MOD := by
  cases acq <;> rfl

theorem resize_frame_eq (s : State) (w h : Nat) :
    ((s.resize w h).1).frame = s.frame := by
  by_cases hz : w = 0 ∨ h = 0 <;> simp [State.resize, hz]

theorem applyOp_width_height (s : State) (op : Op)
    (hw : 1 ≤ s.width) (hh : 1 ≤ s.height) :
    1 ≤ (s.applyOp op).width ∧ 1 ≤ (s.applyOp op).height := by
  cases op with
  | resize w h =>
    by_cases hz : w = 0 ∨ h = 0
    · simp [State.applyOp, State.resize, hz, hw, hh]
    · push_neg at hz
      simp only [State.applyOp, State.resize, if_neg (by tauto : ¬(w = 0 ∨ h = 0))]
      exact ⟨Nat.one_le_iff_ne_zero.mpr hz.1, Nat.one_le_iff_ne_zero.mpr hz.2⟩
  | render acq => cases acq <;> exact ⟨hw, hh⟩

theorem runOps_width_height (ops : List Op) :
    ∀ s : State, 1 ≤ s.width → 1 ≤ s.height →
      1 ≤ (runOps s ops).width ∧ 1 ≤ (runOps s ops).height := by
  induction ops with
  | nil => intro s hw hh; exact ⟨hw, hh⟩
  | cons op rest ih =>
    intro s hw hh
    obtain ⟨hw1, hh1⟩ := applyOp_width_height s op hw hh
    simpa [runOps, List.foldl_cons] using ih (s.applyOp op) hw1 hh1

/-- Claim C7: from creation onward the configured surface dimensions are both
at least 1 — `State::new` floors each window dimension to 1, `resize` never
stores a zero dimension, and `render` does not change the configuration, so
every sequence of operations preserves `width ≥ 1 ∧ height ≥ 1`. -/
theorem session_size_ge_one (w0 h0 : Nat) (ops : List Op) :
    1 ≤ (runOps (State.new w0 h0) ops).width ∧
    1 ≤ (runOps (State.new w0 h0) ops).height := by
  refine runOps_width_height ops (State.new w0 h0) ?_ ?_ <;>
    simp [State.new]

/-- The uniform-block invariant: the last-written `size` matches the
configured size and the last-written `frame` matches the counter. -/
def uniformInv (s : State) : Prop :=
  s.uniform.size = (s.width, s.height) ∧ s.uniform.frame = s.frame

theorem uniformInv_applyOp (s : State) (op : Op) (h : uniformInv s) :
    uniformInv (s.applyOp op) := by
  cases op with
  | resize w h' =>
    by_cases hz : w = 0 ∨ h' = 0
    · simpa [State.applyOp, State.resize, hz] using h
    · simp [State.applyOp, State.resize, hz, uniformInv]
  | render acq => cases acq <;> exact ⟨rfl, rfl⟩

theorem uniformInv_runOps (ops : List Op) :
    ∀ s : State, uniformInv s → uniformInv (runOps s ops) := by
  induction ops with
  | nil => intro s h; exact h
  | cons op rest ih =>
    intro s h
    simpa [runOps, List.foldl_cons] using ih (s.applyOp op) (uniformInv_applyOp s op h)

theorem frame_runOps (ops : List Op) :
    ∀ s : State, s.frame < U32_MOD →
      (runOps s ops).frame = (s.frame + countRenders ops) % U32_MOD := by
  induction ops with
  | nil =>
    intro s h
    simp [runOps, countRenders, Nat.mod_eq_of_lt h]
  | cons op rest ih =>
    intro s h
    cases op with
    | resize w h' =>
      have hfr : ((s.resize w h').1).frame = s.frame := resize_frame_eq s w h'
      have := ih (s.applyOp (.resize w h')) (by simpa [State.applyOp, hfr] using h)
      simpa [runOps, List.foldl_cons, State.applyOp, hfr, countRenders] using this
    | render acq =>
      have hfr : ((s.applyOp (.render acq)).frame) = (s.frame + 1) % U32_MOD := by
        cases acq <;> rfl
      have hlt : (s.applyOp (.render acq)).frame < U32_MOD := by
        rw [hfr]; exact Nat.mod_lt _ (by norm_num [U32_MOD])
      have hrec := ih (s.applyOp (.render acq)) hlt
      have hcnt : countRenders (Op.render acq :: rest) = countRenders rest + 1 := by
        simp [countRenders, List.countP_cons]
      calc (runOps s (Op.render acq :: rest)).frame
          = (runOps (s.applyOp (.render acq)) rest).frame := rfl
        _ = ((s.applyOp (.render acq)).frame + countRenders rest) % U32_MOD := hrec
        _ = ((s.frame + 1) % U32_MOD + countRenders rest) % U32_MOD := by rw [hfr]
        _ = (s.frame + 1 + countRenders rest) % U32_MOD := Nat.mod_add_mod _ _ _
        _ = (s.frame + countRenders (Op.render acq :: rest)) % U32_MOD := by
            rw [hcnt]; congr 1; omega

theorem resize_then_render_size (s : State) (w h : Nat) (acq : Option SurfaceError)
    (hw : 1 ≤ w) (hh : 1 ≤ h) :
    ((((((s.resize w h).1)).render acq).1).1).uniform.size = (w, h) := by
  have hz : ¬(w = 0 ∨ h = 0) := by omega
  cases acq <;> simp [State.resize, hz, State.render]

/-- Claim C2: after any sequence of operations from creation, the uniform
block's `size` equals the configured surface size and its `frame` equals the
frame counter, which equals the number of render calls issued modulo `2^32`;
moreover after a successful `resize(w,h)` with `w,h ≥ 1` the next `render`
writes a uniform `size` equal to `(w,h)`. -/
theorem uniform_block_invariant (w0 h0 : Nat) (ops : List Op) (w h : Nat)
    (acq : Option SurfaceError) (hw : 1 ≤ w) (hh : 1 ≤ h) :
    (runOps (State.new w0 h0) ops).uniform.size =
      ((runOps (State.new w0 h0) ops).width, (runOps (State.new w0 h0) ops).height) ∧
    (runOps (State.new w0 h0) ops).uniform.frame = (runOps (State.new w0 h0) ops).frame ∧
    (runOps (State.new w0 h0) ops).frame = countRenders ops % U32_MOD ∧
    ((((((runOps (State.new w0 h0) ops).resize w h).1).render acq).1).1).uniform.size
      = (w, h) := by
  obtain ⟨h1, h2⟩ := uniformInv_runOps ops (State.new w0 h0) ⟨rfl, rfl⟩
  refine ⟨h1, h2, ?_, resize_then_render_size _ w h acq hw hh⟩
  have := frame_runOps ops (State.new w0 h0) (by norm_num [State.new, U32_MOD])
  simpa [State.new] using this

theorem uniform_block_invariant_witness :
    (runOps (State.new 800 600) [Op.render none]).uniform.size =
      ((runOps (State.new 800 600) [Op.render none]).width,
       (runOps (State.new 800 600) [Op.render none]).height) ∧
    (runOps (State.new 800 600) [Op.render none]).uniform.frame =
      (runOps (State.new 800 600) [Op.render none]).frame ∧
    (runOps (State.new 800 600) [Op.render none]).frame
      = countRenders [Op.render none] % U32_MOD ∧
    ((((((runOps (State.new 800 600) [Op.render none]).resize 400 300).1).render
        none).1).1).uniform.size = (400, 300) :=
  uniform_block_invariant 800 600 [Op.render none] 400 300 none
    (by decide) (by decide)

def isRedrawRequest : Effect → Bool
  | .requestRedraw => true
  | _ => false

def isExitLoop : Effect → Bool
  | .exitLoop => true
  | _ => false

/-- The Controller right after `resumed` with an 800x600 window at time 0. -/
def app0 : App :=
  (App.resumed { state := none, animating := false, fps_frames := 0, fps_last := none }
    800 600 0).1

def scriptE1 : WEvent := .redrawRequested (some .Lost) 100

def scriptE2 : WEvent := .redrawRequested none 200

def scriptE3 : WEvent := .redrawRequested (some .OutOfMemory) 300

def step1 : App × List Effect := app0.window_event scriptE1

def step2 : App × List Effect := (step1.1).window_event scriptE2

def step3 : App × List Effect := (step2.1).window_event scriptE3

/-- Claim C4: for the scripted render outcomes Lost, success, OutOfMemory,
the Controller reconfigures via `resize` exactly once with the currently
configured 800x600 and requests one more redraw; on the success it increments
the frame tally and requests another redraw; on OutOfMemory it clears
`animating`, drains the device, requests exit exactly once, and issues no
further redraw requests afterward (the loop stops at exit). -/
theorem controller_lost_ok_oom (rest : List WEvent) :
    ((step1.2).countP isResizeCall = 1 ∧ Effect.resizeCall 800 600 ∈ step1.2 ∧
      (step1.2).countP isRedrawRequest = 1) ∧
    ((step2.1).fps_frames = (step1.1).fps_frames + 1 ∧
      (step2.2).countP isRedrawRequest = 1) ∧
    ((step3.1).animating = false ∧ Effect.devicePollWait ∈ step3.2 ∧
      (step3.2).countP isExitLoop = 1 ∧
      (step3.2).countP isRedrawRequest = 0) ∧
    (runEvents app0 (scriptE1 :: scriptE2 :: scriptE3 :: rest)).2
        = step1.2 ++ (step2.2 ++ step3.2) ∧
    (step1.2 ++ (step2.2 ++ step3.2)).countP isExitLoop = 1 := by
  refine ⟨by decide, by decide, by decide, ?_, by decide⟩
  rfl

/-- The Controller right after handling a close-requested event. -/
def appClosed : App := (app0.window_event WEvent.closeRequested).1

/-- Claim C5 counterexample: if the host were to deliver a redraw-requested
event after the close-requested event has been handled, the handler would
still invoke `render` (the Session is still present and the match does not
consult `animating`), contradicting "no further render or resize calls occur
for any subsequently delivered event". -/
theorem close_then_redraw_renders :
    Effect.renderCall ∈ (appClosed.window_event (WEvent.redrawRequested none 400)).2 ∧
    (appClosed.window_event (WEvent.redrawRequested none 400)).2.countP
      isRedrawRequest = 0 := by
  decide

/-- Claim C5 (amended): in the event loop — where the host delivers no
further events once exit has been requested — a close-requested event leads
to exactly one exit request, no further render or resize calls, no further
redraw requests, and `animating` cleared. -/
theorem close_requested_terminal (a : App) (rest : List WEvent) :
    (runEvents a (WEvent.closeRequested :: rest)).2.countP isExitLoop = 1 ∧
    (runEvents a (WEvent.closeRequested :: rest)).2.countP isRenderCall = 0 ∧
    (runEvents a (WEvent.closeRequested :: rest)).2.countP isResizeCall = 0 ∧
    (runEvents a (WEvent.closeRequested :: rest)).2.countP isRedrawRequest = 0 ∧
    (runEvents a (WEvent.closeRequested :: rest)).1.animating = false := by
  cases h : a.state <;>
    simp [runEvents, App.window_event, h, isExitLoop, isRenderCall,
      isResizeCall, isRedrawRequest]

/-- Claim C8: `resumed` (the can-render-now signal) sets `animating` to true,
and `window_event` sets it to false exactly on close-requested and on an
OutOfMemory render outcome (which requires a Session to be present); every
other event leaves it unchanged. -/
theorem animating_flag_transitions (a : App) (e : WEvent) (w0 h0 now : Nat) :
    ((a.resumed w0 h0 now).1.animating = true) ∧
    ((a.window_event e).1.animating =
      match e with
      | .closeRequested => false
      | .redrawRequested acq _ =>
        if a.state.isSome = true ∧ acq = some SurfaceError.OutOfMemory then false
        else a.animating
      | _ => a.animating) := by
  refine ⟨rfl, ?_⟩
  cases e with
  | closeRequested => cases h : a.state <;> simp [App.window_event, h]
  | other => rfl
  | resized ew eh =>
    cases h : a.state with
    | none => simp [App.window_event, h]
    | some s =>
      rcases hr : s.resize ew eh with ⟨s1, eff⟩
      simp [App.window_event, h, hr]
  | redrawRequested acq now' =>
    cases h : a.state with
    | none => simp [App.window_event, h]
    | some s =>
      cases acq with
      | none =>
        simp only [App.window_event, h, State.render]
        cases hf : a.fps_last with
        | none => simp [hf]
        | some t0 =>
          by_cases ht : 1000 ≤ now' - t0 <;> simp [hf, ht]
      | some err =>
        cases err <;>
          simp [App.window_event, h, State.render, State.resize]

/-- Claim C10: whenever a Session exists, a redraw-requested event invokes
`render` exactly once regardless of `animating`; a follow-up redraw request
is issued exactly when `animating` is set and the render outcome is success,
Lost, or Outdated. -/
theorem redraw_always_renders (a : App) (s : State) (acq : Option SurfaceError)
    (now : Nat) (h : a.state = some s) :
    (a.window_event (WEvent.redrawRequested acq now)).2.countP isRenderCall = 1 ∧
    (a.window_event (WEvent.redrawRequested acq now)).2.countP isRedrawRequest =
      (if a.animating = true ∧ (acq = none ∨ acq = some SurfaceError.Lost ∨
          acq = some SurfaceError.Outdated) then 1 else 0) := by
  cases acq with
  | none =>
    simp only [App.window_event, h, State.render]
    cases hf : a.fps_last with
    | none =>
      by_cases ha : a.animating = true <;>
        simp [hf, ha, isRenderCall, isRedrawRequest]
    | some t0 =>
      by_cases ht : 1000 ≤ now - t0 <;> by_cases ha : a.animating = true <;>
        simp [hf, ht, ha, isRenderCall, isRedrawRequest]
  | some err =>
    cases err with
    | Lost =>
      simp only [App.window_event, h, State.render]
      by_cases hz : s.width = 0 ∨ s.height = 0 <;>
        by_cases ha : a.animating = true <;>
          simp [State.resize, hz, ha, isRenderCall, isRedrawRequest]
    | Outdated =>
      simp only [App.window_event, h, State.render]
      by_cases hz : s.width = 0 ∨ s.height = 0 <;>
        by_cases ha : a.animating = true <;>
          simp [State.resize, hz, ha, isRenderCall, isRedrawRequest]
    | OutOfMemory =>
      simp [App.window_event, h, State.render, isRenderCall, isRedrawRequest]
    | Timeout =>
      simp [App.window_event, h, State.render, isRenderCall, isRedrawRequest]
    | Other =>
      simp [App.window_event, h, State.render, isRenderCall, isRedrawRequest]

theorem redraw_always_renders_witness :
    (app0.window_event (WEvent.redrawRequested (some SurfaceError.Timeout) 50)).2.countP
        isRenderCall = 1 ∧
    (app0.window_event (WEvent.redrawRequested (some SurfaceError.Timeout) 50)).2.countP
        isRedrawRequest =
      (if app0.animating = true ∧ ((some SurfaceError.Timeout : Option SurfaceError) = none ∨
          (some SurfaceError.Timeout : Option SurfaceError) = some SurfaceError.Lost ∨
          (some SurfaceError.Timeout : Option SurfaceError) = some SurfaceError.Outdated)
       then 1 else 0) :=
  redraw_always_renders app0 (State.new 800 600) (some SurfaceError.Timeout) 50 rfl

/-- A surface color format as seen through `get_capabilities`: all the code
inspects is whether it is sRGB-encoded. -/
structure SurfaceFormat where
  isSrgb : Bool
deriving DecidableEq, Repr

/-- The startup failure points of `State::new` (state.rs lines 31-54): each
is an `expect`/index panic. -/
inductive StartupPanic
  | noAdapter
  | noDevice
  | noFormat
deriving DecidableEq, Repr

/-- The GPU environment `State::new` negotiates with: adapter and device
availability, and the surface's advertised formats. -/
structure GpuEnv where
  hasAdapter : Bool
  hasDevice : Bool
  formats : List SurfaceFormat
deriving DecidableEq, Repr

/-- `State::new` with its failure points explicit (state.rs lines 31-54):
`request_adapter(..).expect("adapter")` and `request_device(..).expect("device")`
panic when unavailable; format selection prefers the first sRGB format and
falls back to `caps.formats[0]`, which panics when the format list is empty. -/
def stateNewChecked (env : GpuEnv) (w0 h0 : Nat) :
    Except StartupPanic (State × SurfaceFormat) :=
  if env.hasAdapter = false then .error .noAdapter
  else if env.hasDevice = false then .error .noDevice
  else
    match env.formats with
    | [] => .error .noFormat
    | f0 :: fs =>
      match (f0 :: fs).find? (fun f => f.isSrgb) with
      | some f => .ok (State.new w0 h0, f)
      | none => .ok (State.new w0 h0, f0)

/-- Process termination status: `main` (main.rs lines 364-371) discards the
event loop's result (`let _ = event_loop.run_app(&mut app);`) and returns
unit, so a run that reaches the end of the loop terminates with the default
success exit code; a failed `expect` during Session creation panics, and the
process then terminates with the nonzero Rust panic exit code. -/
inductive ExitStatus
  | success
  | panicked
deriving DecidableEq, Repr

/-- The process' termination status: Session creation happens in `resumed`
when the loop starts; if it panics the process dies with the panic status,
otherwise the loop runs the delivered events to completion (or to an exit
request) and `main` returns success. -/
def processExit (env : GpuEnv) (w0 h0 : Nat) (events : List WEvent) : ExitStatus :=
  match stateNewChecked env w0 h0 with
  | .error _ => .panicked
  | .ok _ =>
    let a0 := (App.resumed
      { state := none, animating := false, fps_frames := 0, fps_last := none }
      w0 h0 0).1
    let _run := runEvents a0 events
    .success

/-- Claim C9 counterexample: with no compatible GPU adapter the startup path
panics (`expect("adapter")`), so the process does not terminate with the
default success code. -/
theorem startup_failure_not_success :
    processExit
        { hasAdapter := false, hasDevice := true, formats := [{ isSrgb := true }] }
        800 600 [] ≠ ExitStatus.success ∧
    processExit { hasAdapter := true, hasDevice := true, formats := [] }
      800 600 [] ≠ ExitStatus.success := by
  decide

/-- Claim C9 (amended): runs that get past startup — including normal close
and fatal OutOfMemory render outcomes — terminate with the default success
code because `main` discards the event loop's result; fatal environment
failures at startup (no adapter, no device, no usable format) panic instead
and terminate with the nonzero panic status. -/
theorem exit_status_by_path (env : GpuEnv) (w0 h0 : Nat) (events : List WEvent) :
    processExit env w0 h0 events =
      if env.hasAdapter = true ∧ env.hasDevice = true ∧ env.formats ≠ [] then
        ExitStatus.success
      else ExitStatus.panicked := by
  rcases env with ⟨ha, hd, fmts⟩
  cases ha <;> cases hd <;> cases fmts with
  | nil => simp [processExit, stateNewChecked]
  | cons f fs =>
    rcases hf : (f :: fs).find? (fun x => x.isSrgb) with _ | g <;>
      simp [processExit, stateNewChecked, hf]
